import Mathlib

/-!
Verification of the face-tracking-eyes pipeline (src/main.rs).

Shallow embedding conventions:
* `u8` pixel channels are `ℕ` values (bounded by 255 where a claim needs it).
* `f32` arithmetic is modelled exactly over `ℚ`.  The decimal literals of the
  source (`0.299`, `0.587`, `0.114`, `2.0`, `1.0`, `0.15`) are modelled by the
  exact rationals they denote.  `std::f32::consts::PI` is a fixed constant of
  the runtime; it is threaded through the definitions as an explicit parameter
  `pi : ℚ`, so every theorem holds for the `f32` approximation of π as well as
  for any other value of the constant.
* Rust slice indexing `rgb_data[idx]`, which panics out of bounds, is modelled
  by `List.get?`, with the whole conversion returning `Option` — `none` marks
  the panic.
* The `Arc<Mutex<Option<(f32, f32)>>>` slot is a `GazeSlot`: its contents
  plus a `poisoned` flag.  `lock()` returning `Err` (poisoned mutex) makes the
  writer skip the store and the reader fall back to `None`, exactly as the
  `if let Ok(..)` patterns in the source do.
-/

/-- In-bounds `List.get?` agrees with `List.getD`. -/
theorem get?_eq_getD_of_lt (l : List ℕ) (i : ℕ) (h : i < l.length) :
    l.get? i = some (l.getD i 0) := by
  simp [List.getD_eq_getElem?_getD, List.get?_eq_get h, List.getElem?_eq_getElem h]

/-- Grayscale value of one pixel, from `create_gray_data` in src/main.rs:
`(0.299 * r + 0.587 * g + 0.114 * b) as u8`.  The `as u8` cast of a
non-negative `f32` truncates toward zero and saturates at 255; with the
weighted sum computed exactly over ℚ, truncation of the non-negative value
is floor, i.e. `ℕ` division by 1000. -/
def gray_val (r g b : ℕ) : ℕ :=
  min ((299 * r + 587 * g + 114 * b) / 1000) 255

/-- The loop body of `create_gray_data`: for `i in 0..n`, read channels at
`i*3`, `i*3+1`, `i*3+2` and push the gray value.  Out-of-bounds indexing
(a Rust panic) yields `none`. -/
def grayLoop (rgb_data : List ℕ) : ℕ → Option (List ℕ)
  | 0 => some []
  | n + 1 => do
    let pre ← grayLoop rgb_data n
    let r ← rgb_data.get? (n * 3)
    let g ← rgb_data.get? (n * 3 + 1)
    let b ← rgb_data.get? (n * 3 + 2)
    some (pre ++ [gray_val r g b])

/-- The function `create_gray_data(rgb_data, width, height)` from
src/main.rs: iterates `i` over `0..(width*height)` pushing the luminance of
pixel `i`. -/
def create_gray_data (rgb_data : List ℕ) (width height : ℕ) : Option (List ℕ) :=
  grayLoop rgb_data (width * height)

/-- After `n` iterations the loop has produced exactly the first `n` gray
values, provided the buffer holds at least `3 * n` bytes. -/
theorem grayLoop_eq_map (rgb_data : List ℕ) :
    ∀ n : ℕ, 3 * n ≤ rgb_data.length →
      grayLoop rgb_data n = some ((List.range n).map (fun i =>
        gray_val (rgb_data.getD (i * 3) 0) (rgb_data.getD (i * 3 + 1) 0)
          (rgb_data.getD (i * 3 + 2) 0))) := by
  intro n
  induction n with
  | zero => intro _; simp [grayLoop]
  | succ m ih =>
    intro hlen
    have hm : 3 * m ≤ rgb_data.length := by omega
    have hr : m * 3 < rgb_data.length := by omega
    have hg : m * 3 + 1 < rgb_data.length := by omega
    have hb : m * 3 + 2 < rgb_data.length := by omega
    rw [grayLoop, ih hm,
      get?_eq_getD_of_lt _ _ hr, get?_eq_getD_of_lt _ _ hg,
      get?_eq_getD_of_lt _ _ hb]
    simp [List.range_succ]

/-- Normalized face position computed in the detection loop of
`run_face_detection` (src/main.rs lines 125-137).  The bbox coordinates are
`i32`; for a region fully contained in the frame they are non-negative, so
they are modelled as `ℕ`.  `bbox.width() as i32 / 2` is `i32` division,
which truncates — on non-negative values that is `ℕ` floor division. -/
def face_normalized_position (x y w h : ℕ) (width height : ℕ) : ℚ × ℚ :=
  let center_x : ℕ := x + w / 2
  let center_y : ℕ := y + h / 2
  let norm_x : ℚ := ((center_x : ℚ) / (width : ℚ)) * 2 - 1
  let norm_y : ℚ := -(((center_y : ℚ) / (height : ℚ)) * 2 - 1)
  (norm_x, norm_y)

/-- The shared gaze state: the contents of the
`Arc<Mutex<Option<(f32, f32)>>>` slot plus the mutex's poison flag. -/
structure GazeSlot where
  value : Option (ℚ × ℚ)
  poisoned : Bool
deriving DecidableEq

/-- The slot as created in `main`: `Arc::new(Mutex::new(None))`, an
unpoisoned mutex holding `None`. -/
def initial_position : GazeSlot := { value := none, poisoned := false }

/-- The detection loop's store:
`if let Ok(mut pos) = face_position.position.lock() { *pos = v; }`.
When the lock is poisoned the `if let` falls through and the store is
skipped; otherwise the slot's contents are replaced. -/
def publish (s : GazeSlot) (v : Option (ℚ × ℚ)) : GazeSlot :=
  if s.poisoned then s else { s with value := v }

/-- The reader at the top of `eye_follow_face` (src/main.rs lines 234-239):
`let face_pos = if let Ok(pos) = face_position.position.lock() { *pos }
else { None };`. -/
def read_face_pos (s : GazeSlot) : Option (ℚ × ℚ) :=
  if s.poisoned then none else s.value

/-- Target-angle computation of `eye_follow_face` (src/main.rs lines
240-251): `face_pos.unwrap_or((0.0, 0.0))`, `max_yaw = PI / 4`,
`max_pitch = PI / 6`, `target_yaw = -norm_x * max_yaw`,
`target_pitch = norm_y * max_pitch`.  `pi` is the value of
`std::f32::consts::PI`, threaded as a parameter. -/
def eye_follow_face_target (pi : ℚ) (face_pos : Option (ℚ × ℚ)) : ℚ × ℚ :=
  let norm := face_pos.getD (0, 0)
  let max_yaw := pi / 4
  let max_pitch := pi / 6
  (-norm.1 * max_yaw, norm.2 * max_pitch)

/-- One render tick's target angles: read the shared slot, then map the
(possibly absent) normalized position to target yaw and pitch. -/
def eye_follow_face_tick (pi : ℚ) (s : GazeSlot) : ℚ × ℚ :=
  eye_follow_face_target pi (read_face_pos s)

/-- The model filename checked at startup (src/main.rs line 62). -/
def model_path : String := "seeta_fd_frontal_v1.0.bin"

/-- The fixed download URL used when the model file is absent
(src/main.rs line 67). -/
def model_url : String :=
  "https://raw.githubusercontent.com/atomashpolskiy/rustface/master/model/seeta_fd_frontal_v1.0.bin"

/-- Environment facts the model-acquisition code of `run_face_detection`
branches on: whether the model file exists, whether `curl` could be spawned
(`.output()` returned `Ok` — `.expect` panics otherwise), and whether the
spawned `curl` exited successfully (`response.status.success()`). -/
structure StartupEnv where
  model_file_exists : Bool
  curl_spawn_ok : Bool
  curl_status_success : Bool
deriving DecidableEq

/-- How the startup section of `run_face_detection` (src/main.rs lines
62-79) exits: the detector initializes and the detection loop is entered;
or the function does `return Ok(())` before ever publishing (detection
disabled for the process lifetime); or the `.expect` on `curl` spawn
failure panics the detection thread. -/
inductive StartupOutcome where
  | detectorReady
  | returnedOkNoPublish
  | threadPanicked
deriving DecidableEq

/-- The model-acquisition control flow of `run_face_detection` (src/main.rs
lines 62-79).  Returns the outcome together with the URL fetched from, when
a fetch was attempted. -/
def run_face_detection_startup (env : StartupEnv) : StartupOutcome × Option String :=
  if env.model_file_exists then (.detectorReady, none)
  else if env.curl_spawn_ok = false then (.threadPanicked, some model_url)
  else if env.curl_status_success then (.detectorReady, some model_url)
  else (.returnedOkNoPublish, some model_url)

/-- For 8-bit channels the truncated weighted sum is the rational floor of
`0.299*R + 0.587*G + 0.114*B`, and that sum never exceeds 255, so the
saturation of the `as u8` cast is inactive. -/
theorem gray_val_eq_floor (r g b : ℕ) (hr : r ≤ 255) (hg : g ≤ 255) (hb : b ≤ 255) :
    gray_val r g b = ⌊0.299 * (r : ℚ) + 0.587 * g + 0.114 * b⌋₊ ∧
    0.299 * (r : ℚ) + 0.587 * g + 0.114 * b ≤ 255 := by
  have hdiv : (299 * r + 587 * g + 114 * b) / 1000 ≤ 255 := by omega
  have hsum : (0.299 : ℚ) * r + 0.587 * g + 0.114 * b
      = ((299 * r + 587 * g + 114 * b : ℕ) : ℚ) / 1000 := by push_cast; ring
  constructor
  · rw [gray_val, min_eq_left hdiv, hsum, Nat.floor_div_ofNat, Nat.floor_natCast]
  · rw [hsum]
    have h2 : ((299 * r + 587 * g + 114 * b : ℕ) : ℚ) ≤ 255000 := by
      exact_mod_cast (by omega : 299 * r + 587 * g + 114 * b ≤ 255000)
    linarith

/-- C2 (counterexample): the claim says each pixel becomes
`round(0.299*R + 0.587*G + 0.114*B)`, but `create_gray_data` uses the
truncating `as u8` cast.  At the single pixel `(R,G,B) = (0,1,0)` the code
yields 0 while the rounded value is 1. -/
theorem create_gray_data_round_counterexample :
    create_gray_data [0, 1, 0] 1 1 = some [0] ∧
    round ((0.299 : ℚ) * 0 + 0.587 * 1 + 0.114 * 0) = 1 ∧ (0 : ℕ) ≠ 1 := by
  refine ⟨by rfl, ?_, by decide⟩
  norm_num [round_eq]

/-- C2 (amended): for every frame whose buffer length equals
`width*height*3` with 8-bit channels, pixel `i` of the output is the
truncation (floor) of `0.299*R + 0.587*G + 0.114*B` — not the rounding —
and that weighted sum never exceeds 255, so no clamping beyond the
truncating 8-bit cast occurs. -/
theorem create_gray_data_pixels_floor (rgb_data : List ℕ) (width height : ℕ)
    (hlen : rgb_data.length = width * height * 3)
    (hbyte : ∀ v ∈ rgb_data, v ≤ 255) :
    ∃ out, create_gray_data rgb_data width height = some out ∧
      out.length = width * height ∧
      ∀ i, i < width * height →
        ∃ r g b, rgb_data.get? (i * 3) = some r ∧
          rgb_data.get? (i * 3 + 1) = some g ∧
          rgb_data.get? (i * 3 + 2) = some b ∧
          out.get? i = some ⌊0.299 * (r : ℚ) + 0.587 * g + 0.114 * b⌋₊ ∧
          0.299 * (r : ℚ) + 0.587 * g + 0.114 * b ≤ 255 := by
  have h3 : 3 * (width * height) ≤ rgb_data.length := by omega
  rw [create_gray_data, grayLoop_eq_map _ _ h3]
  refine ⟨_, rfl, by simp, ?_⟩
  intro i hi
  have hr0 : i * 3 < rgb_data.length := by omega
  have hg0 : i * 3 + 1 < rgb_data.length := by omega
  have hb0 : i * 3 + 2 < rgb_data.length := by omega
  have hrm := get?_eq_getD_of_lt _ _ hr0
  have hgm := get?_eq_getD_of_lt _ _ hg0
  have hbm := get?_eq_getD_of_lt _ _ hb0
  have hrv : rgb_data.getD (i * 3) 0 ≤ 255 := hbyte _ (List.get?_mem hrm)
  have hgv : rgb_data.getD (i * 3 + 1) 0 ≤ 255 := hbyte _ (List.get?_mem hgm)
  have hbv : rgb_data.getD (i * 3 + 2) 0 ≤ 255 := hbyte _ (List.get?_mem hbm)
  obtain ⟨hfloor, hle⟩ := gray_val_eq_floor _ _ _ hrv hgv hbv
  refine ⟨_, _, _, hrm, hgm, hbm, ?_, hle⟩
  rw [List.get?_map, List.get?_range hi, Option.map_some', hfloor]

/-- C3: the luminance conversion is deterministic (equal inputs give
bit-for-bit equal outputs) and dimension-preserving: on a buffer of length
`width*height*3` it succeeds with an output of length `width*height`. -/
theorem create_gray_data_deterministic_dims (rgb_data rgb2 : List ℕ)
    (width height : ℕ) (hlen : rgb_data.length = width * height * 3)
    (heq : rgb2 = rgb_data) :
    create_gray_data rgb2 width height = create_gray_data rgb_data width height ∧
    ∃ out, create_gray_data rgb_data width height = some out ∧
      out.length = width * height := by
  refine ⟨by rw [heq], ?_⟩
  have h3 : 3 * (width * height) ≤ rgb_data.length := by omega
  rw [create_gray_data, grayLoop_eq_map _ _ h3]
  exact ⟨_, rfl, by simp⟩

/-- C10: under the precondition `rgb_data.length ≥ width*height*3`, all
indices `3*i`, `3*i+1`, `3*i+2` used by `create_gray_data` are in bounds
for `i < width*height`, the function is total (no out-of-bounds panic,
i.e. no `none`), and it returns exactly `width*height` elements. -/
theorem create_gray_data_safe (rgb_data : List ℕ) (width height : ℕ)
    (hlen : width * height * 3 ≤ rgb_data.length) :
    (∀ i, i < width * height →
      i * 3 < rgb_data.length ∧ i * 3 + 1 < rgb_data.length ∧
        i * 3 + 2 < rgb_data.length) ∧
    ∃ out, create_gray_data rgb_data width height = some out ∧
      out.length = width * height := by
  refine ⟨fun i hi => by omega, ?_⟩
  have h3 : 3 * (width * height) ≤ rgb_data.length := by omega
  rw [create_gray_data, grayLoop_eq_map _ _ h3]
  exact ⟨_, rfl, by simp⟩

/-- Witness for C2 (amended): a concrete one-pixel frame. -/
theorem create_gray_data_pixels_floor_witness :
    ∃ out, create_gray_data [0, 255, 0] 1 1 = some out ∧
      out.length = 1 * 1 ∧
      ∀ i, i < 1 * 1 →
        ∃ r g b, ([0, 255, 0] : List ℕ).get? (i * 3) = some r ∧
          ([0, 255, 0] : List ℕ).get? (i * 3 + 1) = some g ∧
          ([0, 255, 0] : List ℕ).get? (i * 3 + 2) = some b ∧
          out.get? i = some ⌊0.299 * (r : ℚ) + 0.587 * g + 0.114 * b⌋₊ ∧
          0.299 * (r : ℚ) + 0.587 * g + 0.114 * b ≤ 255 :=
  create_gray_data_pixels_floor [0, 255, 0] 1 1 (by decide) (by decide)

/-- Witness for C3: a concrete one-pixel frame. -/
theorem create_gray_data_deterministic_dims_witness :
    create_gray_data [10, 20, 30] 1 1 = create_gray_data [10, 20, 30] 1 1 ∧
    ∃ out, create_gray_data [10, 20, 30] 1 1 = some out ∧
      out.length = 1 * 1 :=
  create_gray_data_deterministic_dims [10, 20, 30] [10, 20, 30] 1 1 (by decide) rfl

/-- Witness for C10: a concrete buffer longer than `width*height*3`. -/
theorem create_gray_data_safe_witness :
    (∀ i, i < 1 * 1 →
      i * 3 < ([5, 6, 7, 8] : List ℕ).length ∧
        i * 3 + 1 < ([5, 6, 7, 8] : List ℕ).length ∧
        i * 3 + 2 < ([5, 6, 7, 8] : List ℕ).length) ∧
    ∃ out, create_gray_data [5, 6, 7, 8] 1 1 = some out ∧
      out.length = 1 * 1 :=
  create_gray_data_safe [5, 6, 7, 8] 1 1 (by decide)

/-- A coordinate `c ≤ n` with `n > 0` maps into `[-1, 1]` under
`c/n * 2 - 1`. -/
theorem norm_coord_bounds (c n : ℕ) (hn : 0 < n) (hc : c ≤ n) :
    -1 ≤ (c : ℚ) / n * 2 - 1 ∧ (c : ℚ) / n * 2 - 1 ≤ 1 := by
  have hnQ : (0 : ℚ) < n := by exact_mod_cast hn
  have hcQ : (c : ℚ) ≤ n := by exact_mod_cast hc
  have h1 : (c : ℚ) / n ≤ 1 := (div_le_one hnQ).mpr hcQ
  have h0 : 0 ≤ (c : ℚ) / n := div_nonneg (Nat.cast_nonneg _) hnQ.le
  constructor <;> linarith

/-- The three landmark values of `c/n * 2 - 1`: midpoint, left edge,
right edge. -/
theorem norm_coord_cases (c n : ℕ) (hn : 0 < n) :
    (2 * c = n → (c : ℚ) / n * 2 - 1 = 0) ∧
    (c = 0 → (c : ℚ) / n * 2 - 1 = -1) ∧
    (c = n → (c : ℚ) / n * 2 - 1 = 1) := by
  have hnQ : (n : ℚ) ≠ 0 := Nat.cast_ne_zero.mpr hn.ne'
  refine ⟨?_, ?_, ?_⟩
  · intro hmid
    have hQ : (2 : ℚ) * c = n := by exact_mod_cast hmid
    field_simp
    linarith
  · intro h0
    subst h0
    simp
  · intro hend
    subst hend
    field_simp
    norm_num

/-- C1: for every detected region fully contained in the frame, the
normalized position of the detection loop is
`nx = (center_x/width)*2 - 1`, `ny = -((center_y/height)*2 - 1)` with
`center_x = x + w/2`, `center_y = y + h/2` (integer halving, as in the
source); both lie in `[-1, 1]`; a center at the frame center gives
`(0, 0)`, at the top-left corner `(-1, 1)`, at the bottom-right corner
`(1, -1)`. -/
theorem detection_normalization (x y w h width height : ℕ) (nx ny : ℚ)
    (hw : 0 < w) (hh : 0 < h) (hW : 0 < width) (hH : 0 < height)
    (hxw : x + w ≤ width) (hyh : y + h ≤ height)
    (hnorm : face_normalized_position x y w h width height = (nx, ny)) :
    nx = ((x + w / 2 : ℕ) : ℚ) / width * 2 - 1 ∧
    ny = -(((y + h / 2 : ℕ) : ℚ) / height * 2 - 1) ∧
    -1 ≤ nx ∧ nx ≤ 1 ∧ -1 ≤ ny ∧ ny ≤ 1 ∧
    (2 * (x + w / 2) = width → 2 * (y + h / 2) = height → nx = 0 ∧ ny = 0) ∧
    (x + w / 2 = 0 → y + h / 2 = 0 → nx = -1 ∧ ny = 1) ∧
    (x + w / 2 = width → y + h / 2 = height → nx = 1 ∧ ny = -1) := by
  have hnorm2 : (((x + w / 2 : ℕ) : ℚ) / width * 2 - 1,
      -(((y + h / 2 : ℕ) : ℚ) / height * 2 - 1)) = (nx, ny) := hnorm
  obtain ⟨hnx, hny⟩ := Prod.mk.inj hnorm2
  subst hnx hny
  have hcx : x + w / 2 ≤ width := by
    have := Nat.div_le_self w 2
    omega
  have hcy : y + h / 2 ≤ height := by
    have := Nat.div_le_self h 2
    omega
  obtain ⟨hbx1, hbx2⟩ := norm_coord_bounds (x + w / 2) width hW hcx
  obtain ⟨hby1, hby2⟩ := norm_coord_bounds (y + h / 2) height hH hcy
  obtain ⟨hmx, hlx, hrx⟩ := norm_coord_cases (x + w / 2) width hW
  obtain ⟨hmy, hly, hry⟩ := norm_coord_cases (y + h / 2) height hH
  refine ⟨rfl, rfl, hbx1, hbx2, by linarith, by linarith, ?_, ?_, ?_⟩
  · intro h1 h2
    exact ⟨hmx h1, by rw [hmy h2]; ring⟩
  · intro h1 h2
    exact ⟨hlx h1, by rw [hly h2]; ring⟩
  · intro h1 h2
    exact ⟨hrx h1, by rw [hry h2]⟩

/-- Witness for C1: the region `(x=40, y=30, w=20, h=20)` in a `100x100`
frame, whose normalized position is `(0, 1/5)`. -/
theorem detection_normalization_witness :
    (0 : ℚ) = ((40 + 20 / 2 : ℕ) : ℚ) / 100 * 2 - 1 ∧
    (1 / 5 : ℚ) = -(((30 + 20 / 2 : ℕ) : ℚ) / 100 * 2 - 1) ∧
    -1 ≤ (0 : ℚ) ∧ (0 : ℚ) ≤ 1 ∧ -1 ≤ (1 / 5 : ℚ) ∧ (1 / 5 : ℚ) ≤ 1 ∧
    (2 * (40 + 20 / 2) = 100 → 2 * (30 + 20 / 2) = 100 →
      (0 : ℚ) = 0 ∧ (1 / 5 : ℚ) = 0) ∧
    (40 + 20 / 2 = 0 → 30 + 20 / 2 = 0 → (0 : ℚ) = -1 ∧ (1 / 5 : ℚ) = 1) ∧
    (40 + 20 / 2 = 100 → 30 + 20 / 2 = 100 →
      (0 : ℚ) = 1 ∧ (1 / 5 : ℚ) = -1) :=
  detection_normalization 40 30 20 20 100 100 0 (1 / 5)
    (by decide) (by decide) (by decide) (by decide) (by decide) (by decide)
    (by norm_num [face_normalized_position])

/-- C4: whenever the slot reads as a present position `(nx, ny)`, the tick's
target is `(-nx * max_yaw, ny * max_pitch)` with `max_yaw = pi/4` and
`max_pitch = pi/6`; and the example region `(40, 30, 20, 20)` in a 100x100
frame normalizes to `(0, 0.2)`, giving `target_yaw = 0` and
`target_pitch = 0.2 * (pi/6)`. -/
theorem eye_follow_face_angles (pi : ℚ) (s : GazeSlot) (nx ny : ℚ)
    (hread : read_face_pos s = some (nx, ny)) :
    eye_follow_face_tick pi s = (-nx * (pi / 4), ny * (pi / 6)) ∧
    face_normalized_position 40 30 20 20 100 100 = (0, 1 / 5) ∧
    eye_follow_face_target pi (some (0, 1 / 5)) = (0, 1 / 5 * (pi / 6)) := by
  refine ⟨?_, ?_, ?_⟩
  · rw [eye_follow_face_tick, hread]
    rfl
  · norm_num [face_normalized_position, Prod.mk.injEq]
  · simp [eye_follow_face_target]

/-- Witness for C4: a healthy slot holding `(1/2, 1/3)`, with `pi = 3`. -/
theorem eye_follow_face_angles_witness :
    eye_follow_face_tick 3 { value := some (1 / 2, 1 / 3), poisoned := false }
      = (-(1 / 2) * ((3 : ℚ) / 4), 1 / 3 * ((3 : ℚ) / 6)) ∧
    face_normalized_position 40 30 20 20 100 100 = (0, 1 / 5) ∧
    eye_follow_face_target 3 (some (0, 1 / 5)) = (0, 1 / 5 * ((3 : ℚ) / 6)) :=
  eye_follow_face_angles 3 { value := some (1 / 2, 1 / 3), poisoned := false }
    (1 / 2) (1 / 3) rfl

/-- C5: when the slot reads as absent, the tick behaves exactly as if the
normalized position were `(0, 0)`, and both target angles are 0. -/
theorem eye_follow_face_absent_centers (pi : ℚ) (s : GazeSlot)
    (hread : read_face_pos s = none) :
    eye_follow_face_tick pi s = eye_follow_face_target pi (some (0, 0)) ∧
    eye_follow_face_tick pi s = (0, 0) := by
  rw [eye_follow_face_tick, hread]
  refine ⟨rfl, ?_⟩
  simp [eye_follow_face_target]

/-- Witness for C5: the freshly initialized slot, with `pi = 3`. -/
theorem eye_follow_face_absent_centers_witness :
    eye_follow_face_tick 3 initial_position
      = eye_follow_face_target 3 (some (0, 0)) ∧
    eye_follow_face_tick 3 initial_position = (0, 0) :=
  eye_follow_face_absent_centers 3 initial_position rfl

/-- C6: on an unpoisoned slot, `publish P` followed by `read` with no
intervening publish returns exactly `P`. -/
theorem publish_then_read (s : GazeSlot) (P : ℚ × ℚ)
    (hs : s.poisoned = false) :
    read_face_pos (publish s (some P)) = some P := by
  simp [publish, read_face_pos, hs]

/-- Witness for C6: publishing `(1/2, -1/3)` to the initial slot. -/
theorem publish_then_read_witness :
    read_face_pos (publish initial_position (some (1 / 2, -1 / 3)))
      = some ((1 : ℚ) / 2, -1 / 3) :=
  publish_then_read initial_position (1 / 2, -1 / 3) rfl

/-- C7: a shared gaze state on which no publish was ever performed reads as
absent, so a render tick before any detection cycle sees the no-face state
and targets the center. -/
theorem initial_read_absent :
    read_face_pos initial_position = none ∧
    ∀ pi : ℚ, eye_follow_face_tick pi initial_position = (0, 0) := by
  refine ⟨rfl, fun pi => ?_⟩
  simp [eye_follow_face_tick, read_face_pos, initial_position,
    eye_follow_face_target]

/-- C8: a poisoned slot is read as `none`, identical to "no face detected":
the render tick computes the same centered target as on the untouched
initial state instead of propagating the failure. -/
theorem poisoned_read_absent (s : GazeSlot) (hp : s.poisoned = true) :
    read_face_pos s = none ∧
    ∀ pi : ℚ, eye_follow_face_tick pi s = eye_follow_face_tick pi initial_position := by
  refine ⟨by simp [read_face_pos, hp], fun pi => ?_⟩
  simp [eye_follow_face_tick, read_face_pos, hp, initial_position]

/-- Witness for C8: a poisoned slot that still holds a stale value. -/
theorem poisoned_read_absent_witness :
    read_face_pos { value := some (1, 1), poisoned := true } = none ∧
    ∀ pi : ℚ, eye_follow_face_tick pi { value := some (1, 1), poisoned := true }
      = eye_follow_face_tick pi initial_position :=
  poisoned_read_absent { value := some (1, 1), poisoned := true } rfl

/-- The fixed model URL is an HTTPS URL. -/
theorem model_url_https : model_url
    = "https://" ++ "raw.githubusercontent.com/atomashpolskiy/rustface/master/model/seeta_fd_frontal_v1.0.bin" := by
  rfl

/-- C9: when the model file is absent, the code attempts a fetch from the
fixed HTTPS URL; if the spawned fetch fails, `run_face_detection` returns
`Ok(())` without ever publishing — detection stays disabled — and the
shared slot still reads as absent, so the render loop keeps running with
the no-face behavior instead of the process aborting. -/
theorem model_fetch_failure_graceful (env : StartupEnv)
    (hmissing : env.model_file_exists = false)
    (hspawn : env.curl_spawn_ok = true)
    (hfail : env.curl_status_success = false) :
    (run_face_detection_startup env).2 = some model_url ∧
    (∃ rest, model_url = "https://" ++ rest) ∧
    (run_face_detection_startup env).1 = StartupOutcome.returnedOkNoPublish ∧
    read_face_pos initial_position = none := by
  refine ⟨?_, ⟨_, model_url_https⟩, ?_, rfl⟩ <;>
    simp [run_face_detection_startup, hmissing, hspawn, hfail]

/-- Witness for C9: the environment with no model file, a spawnable fetch
tool, and a failing download. -/
theorem model_fetch_failure_graceful_witness :
    (run_face_detection_startup
      { model_file_exists := false, curl_spawn_ok := true,
        curl_status_success := false }).2 = some model_url ∧
    (∃ rest, model_url = "https://" ++ rest) ∧
    (run_face_detection_startup
      { model_file_exists := false, curl_spawn_ok := true,
        curl_status_success := false }).1 = StartupOutcome.returnedOkNoPublish ∧
    read_face_pos initial_position = none :=
  model_fetch_failure_graceful
    { model_file_exists := false, curl_spawn_ok := true,
      curl_status_success := false } rfl rfl rfl
